import Mathlib

/-!
Verification development for the fk-files terminal file manager
(src/fk-files.py).  The Python source is shallowly embedded: the mutable
session object becomes an explicit `AppState` record, the OS is modelled
by a concrete in-memory filesystem `Fs` (an association list from
absolute, normalized paths to nodes), and each method of the `FkFiles`
class becomes a pure function from the old state (and filesystem) to the
new one.  Fallible OS calls return `Except String`, the error string
standing for Python's `str(e)`.
-/

namespace FkFiles

/-- Model of a filesystem node, as far as the program observes it through
`os.stat` / `os.path.isdir` / `os.listdir`: whether it is a directory,
whether listing it is permitted (`readable` only gates `os.listdir`),
its `st_size`, `st_mtime` and `st_mode` bits. -/
structure FileNode where
  isDir : Bool
  readable : Bool
  size : Nat
  mtime : Int
  modeBits : Nat
deriving DecidableEq, Repr

/-- In-memory filesystem: association list from absolute normalized paths
(such as "/", "/home", "/home/a.txt") to nodes.  The list order of the
children of a directory is the order `os.listdir` returns them in. -/
abbrev Fs := List (String × FileNode)

/-- Model of `os.path.join(a, b)` (posixpath): an absolute `b` discards
`a`; otherwise `b` is appended with a single separator. -/
def pjoin (a b : String) : String :=
  if b.data.head? = some '/' then b
  else if a = "" ∨ a.data.getLast? = some '/' then a ++ b
  else a ++ "/" ++ b

/-- Tests that a character is not the path separator. -/
def notSlash (c : Char) : Bool := c ≠ '/'

/-- Model of `os.path.basename` for paths without trailing slashes:
the part after the last '/'. -/
def basename (p : String) : String :=
  String.mk ((p.data.reverse.takeWhile notSlash).reverse)

/-- Model of `os.path.dirname` for normalized paths (no repeated or
trailing slashes): the part before the last '/', with "/" preserved for
top-level entries. -/
def dirname (p : String) : String :=
  let before := ((p.data.reverse.dropWhile notSlash).drop 1).reverse
  if before = [] then (if p.data.head? = some '/' then "/" else "") else String.mk before

def fsLookup (fs : Fs) (p : String) : Option FileNode :=
  List.lookup p fs

/-- Names directly contained in directory `p`, in filesystem (listdir) order. -/
def fsChildren (fs : Fs) (p : String) : List String :=
  fs.filterMap (fun q => if q.1 ≠ p ∧ dirname q.1 = p then some (basename q.1) else none)

/-- Model of `os.listdir`: fails on a missing path, a non-directory, or an
unreadable directory; otherwise returns the children names in order. -/
def fsListdir (fs : Fs) (p : String) : Except String (List String) :=
  match fsLookup fs p with
  | none => .error ("[Errno 2] No such file or directory: " ++ p)
  | some n =>
    if !n.isDir then .error ("[Errno 20] Not a directory: " ++ p)
    else if !n.readable then .error ("[Errno 13] Permission denied: " ++ p)
    else .ok (fsChildren fs p)

/-- Model of `os.stat`: fails on a missing path. -/
def fsStat (fs : Fs) (p : String) : Except String FileNode :=
  match fsLookup fs p with
  | none => .error ("[Errno 2] No such file or directory: " ++ p)
  | some n => .ok n

/-- Model of `os.path.isdir`. -/
def fsIsdir (fs : Fs) (p : String) : Bool :=
  match fsLookup fs p with
  | some n => n.isDir
  | none => false

/-- Model of `os.path.isfile`. -/
def fsIsfile (fs : Fs) (p : String) : Bool :=
  match fsLookup fs p with
  | some n => !n.isDir
  | none => false

/-- Whether path `q` equals `base` or lies strictly below it. -/
def pathIsUnder (q base : String) : Bool :=
  q = base || (base ++ "/").data.isPrefixOf q.data

/-- Rewrites the prefix `src` of a path to `dst` (used to move subtrees). -/
def replacePathPrefix (src dst p : String) : String :=
  if p = src then dst
  else if (src ++ "/").data.isPrefixOf p.data then
    dst ++ String.mk (p.data.drop src.data.length)
  else p

/-- Model of `os.unlink`: removes a file; fails on a missing path or a
directory. -/
def fsUnlink (fs : Fs) (p : String) : Except String Fs :=
  match fsLookup fs p with
  | none => .error ("[Errno 2] No such file or directory: " ++ p)
  | some n =>
    if n.isDir then .error ("[Errno 21] Is a directory: " ++ p)
    else .ok (fs.filter (fun q => q.1 ≠ p))

/-- Model of `os.rmdir`: removes an empty directory. -/
def fsRmdir (fs : Fs) (p : String) : Except String Fs :=
  match fsLookup fs p with
  | none => .error ("[Errno 2] No such file or directory: " ++ p)
  | some n =>
    if !n.isDir then .error ("[Errno 20] Not a directory: " ++ p)
    else if fsChildren fs p ≠ [] then .error ("[Errno 39] Directory not empty: " ++ p)
    else .ok (fs.filter (fun q => q.1 ≠ p))

/-- Model of `os.rename`: moves the node at `src` (with its whole subtree)
to `dst`, replacing anything previously at `dst`. -/
def fsRename (fs : Fs) (src dst : String) : Except String Fs :=
  match fsLookup fs src with
  | none => .error ("[Errno 2] No such file or directory: " ++ src)
  | some _ =>
    let fs1 := fs.filter (fun q => !(pathIsUnder q.1 dst) || pathIsUnder q.1 src)
    .ok (fs1.map (fun q => (replacePathPrefix src dst q.1, q.2)))

/-- Model of the `cp` / `cp -r` subprocess used by paste: copies the file
or the whole subtree at `src` to `dst`; fails when `src` is missing. -/
def fsCopy (fs : Fs) (src dst : String) : Except String Fs :=
  match fsLookup fs src with
  | none => .error ("cp: cannot stat " ++ src)
  | some _ =>
    let copied := fs.filterMap (fun q =>
      if pathIsUnder q.1 src then some (replacePathPrefix src dst q.1, q.2) else none)
    .ok ((fs.filter (fun q => !(pathIsUnder q.1 dst))) ++ copied)

/-- Prefixes "/a", "/a/b", ... of an absolute normalized path. -/
def pathPrefixes (p : String) : List String :=
  let parts := (p.splitOn "/").filter (fun s => s ≠ "")
  (List.range parts.length).map (fun i => "/" ++ String.intercalate "/" (parts.take (i + 1)))

def defaultDirNode : FileNode :=
  { isDir := true, readable := true, size := 0, mtime := 0, modeBits := 16877 }

/-- Model of `os.makedirs`: fails when the target already exists, else
creates every missing directory along the path. -/
def fsMakedirs (fs : Fs) (p : String) : Except String Fs :=
  match fsLookup fs p with
  | some _ => .error ("[Errno 17] File exists: " ++ p)
  | none =>
    .ok (fs ++ (pathPrefixes p).filterMap (fun q =>
      if (fsLookup fs q).isSome then none else some (q, defaultDirNode)))

/-- One row of the directory listing, mirroring the dict built by
`refresh_files` (keys name / is_dir / size / mtime / mode / full_path). -/
structure Entry where
  name : String
  is_dir : Bool
  size : Nat
  mtime : Int
  mode : String
  full_path : String
deriving DecidableEq, Repr

/-- The mutable fields of the `FkFiles` object that the claims concern.
`message_is_error` models which color `show_message` picked; the wall
clock `message_time` is not modelled. -/
structure AppState where
  current_path : String
  files : List Entry
  selected_idx : Int
  top_idx : Int
  command_mode : Bool
  command : String
  message : String
  message_is_error : Bool
  show_hidden : Bool
  clipboard : List String
  clipboard_is_cut : Bool
deriving DecidableEq, Repr

/-- Embedding of `FkFiles.show_message` (the timestamp is not modelled). -/
def show_message (s : AppState) (msg : String) (is_error : Bool) : AppState :=
  { s with message := msg, message_is_error := is_error }

/-- Embedding of `FkFiles.get_mode_str`: 61440 is the S_IFMT mask 0o170000
and 16384 is S_IFDIR 0o040000; 256 down to 1 are the rwx permission bits. -/
def get_mode_str (mode : Nat) : String :=
  let b := fun (v : Nat) (c : Char) => if mode &&& v ≠ 0 then c else '-'
  let d := if mode &&& 61440 = 16384 then 'd' else '-'
  String.mk [d, b 256 'r', b 128 'w', b 64 'x', b 32 'r', b 16 'w', b 8 'x',
    b 4 'r', b 2 'w', b 1 'x']

/-- Model of Python `str.lower` (per character). -/
def strLower (s : String) : String :=
  String.mk (s.data.map Char.toLower)

/-- Code-point lexicographic order on character lists, Python's `<=` on
strings. -/
def charListLe : List Char → List Char → Bool
  | [], _ => true
  | _ :: _, [] => false
  | c :: cs, d :: ds => if c = d then charListLe cs ds else decide (c < d)

/-- The sort key of `refresh_files`: the tuple `(not is_dir, name.lower())`
compared lexicographically, so directories sort before files and names
case-insensitively within each group. -/
def entryLeB (a b : Entry) : Bool :=
  if a.is_dir = b.is_dir then charListLe (strLower a.name).data (strLower b.name).data
  else a.is_dir

def entryLe (a b : Entry) : Prop := entryLeB a b = true

instance : DecidableRel entryLe :=
  fun a b => inferInstanceAs (Decidable (entryLeB a b = true))

/-- Embedding of the statement `self.files[1:] = sorted(self.files[1:], key)`:
the element at index 0 (if any) stays in place and the rest is sorted
stably.  Python's `sorted` is a stable sort; any stable sort with the
same total key order produces the same list, so `List.insertionSort`
(which is stable) models it exactly. -/
def pySortSlice1 (l : List Entry) : List Entry :=
  match l with
  | [] => []
  | x :: xs => x :: List.insertionSort entryLe xs

/-- The synthetic parent entry prepended by `refresh_files` when the
current path is not the root. -/
def dotdotEntry (p : String) : Entry :=
  { name := "..", is_dir := true, size := 0, mtime := 0, mode := "",
    full_path := pjoin p ".." }

/-- Model of Python `name.startswith('.')`. -/
def startsWithDot (nm : String) : Bool := nm.data.head? = some '.'

/-- One iteration of the listing loop in `refresh_files`: stat the entry,
skipping it (`continue`) when the stat raises. -/
def statEntry (fs : Fs) (current_path nm : String) : Option Entry :=
  match fsStat fs (pjoin current_path nm) with
  | .error _ => none
  | .ok n =>
    some { name := nm, is_dir := fsIsdir fs (pjoin current_path nm), size := n.size,
           mtime := n.mtime, mode := get_mode_str n.modeBits,
           full_path := pjoin current_path nm }

/-- Embedding of `FkFiles.refresh_files`.  The listing is first reset to
the `..`-only (or empty, at the root) base; when `os.listdir` raises the
OSError is caught and only an error message is shown, leaving that base
as the listing.  Otherwise hidden names are filtered, entries that fail
to stat are skipped, and `files[1:]` is sorted in place. -/
def refresh_files (fs : Fs) (s : AppState) : AppState :=
  let base := if s.current_path ≠ "/" then [dotdotEntry s.current_path] else []
  match fsListdir fs s.current_path with
  | .error e => show_message { s with files := base } ("Error: " ++ e) true
  | .ok names =>
    let listed := names.filterMap (fun nm =>
      if !s.show_hidden && startsWithDot nm then none
      else statEntry fs s.current_path nm)
    { s with files := pySortSlice1 (base ++ listed) }

/-- External-environment oracles: `abspath` models `os.path.abspath`
(which depends on the process working directory), and `openErr` gives the
outcome of launching the external opener on a path (`none` = success). -/
structure Env where
  abspath : String → String
  openErr : String → Option String

/-- Embedding of `FkFiles.navigate_to`.  The surrounding try/except of the
source never fires in the model: `os.path.abspath` does not raise and
`refresh_files` catches its own OSError internally. -/
def navigate_to (env : Env) (fs : Fs) (s : AppState) (path : String) : AppState :=
  refresh_files fs
    { s with current_path := env.abspath path, selected_idx := 0, top_idx := 0 }

/-- Python list indexing `l[i]`: nonnegative indices from the front,
negative indices from the back, `none` for an IndexError. -/
def pyIdx? (l : List Entry) (i : Int) : Option Entry :=
  if 0 ≤ i ∧ i < (l.length : Int) then l[i.toNat]?
  else if i < 0 ∧ 0 ≤ i + (l.length : Int) then l[(i + (l.length : Int)).toNat]?
  else none

/-- Embedding of `FkFiles.open_file` (the `return`ed Bool is unused by the
caller and dropped).  A directory is entered via `navigate_to`; otherwise
the external opener runs and only a failure changes the state. -/
def open_file (env : Env) (fs : Fs) (s : AppState) (file_path : String) : AppState :=
  if fsIsdir fs file_path then navigate_to env fs s file_path
  else
    match env.openErr file_path with
    | none => s
    | some e => show_message s ("Error: " ++ e) true

/-- Embedding of `FkFiles.delete_file`.  `none` models the uncaught
IndexError of `self.files[self.selected_idx]` (that subscript sits outside
the try block).  Refusals on `..` and on non-empty directories leave state
and filesystem untouched; a successful removal refreshes the listing and
re-clamps the selection. -/
def delete_file (fs : Fs) (s : AppState) : Option (AppState × Fs) :=
  if (s.files.length : Int) ≤ s.selected_idx then some (s, fs)
  else
    match pyIdx? s.files s.selected_idx with
    | none => none
    | some file =>
      if file.name = ".." then some (s, fs)
      else
        let fp := file.full_path
        if file.is_dir then
          match fsListdir fs fp with
          | .error e => some (show_message s ("Error: " ++ e) true, fs)
          | .ok kids =>
            if kids.length = 0 then
              match fsRmdir fs fp with
              | .error e => some (show_message s ("Error: " ++ e) true, fs)
              | .ok fs2 =>
                let s1 := show_message s ("Directory deleted: " ++ file.name) false
                let s2 := refresh_files fs2 s1
                some ({ s2 with
                        selected_idx := min s2.selected_idx ((s2.files.length : Int) - 1) },
                      fs2)
            else some (show_message s "Directory not empty!" true, fs)
        else
          match fsUnlink fs fp with
          | .error e => some (show_message s ("Error: " ++ e) true, fs)
          | .ok fs2 =>
            let s1 := show_message s ("File deleted: " ++ file.name) false
            let s2 := refresh_files fs2 s1
            some ({ s2 with
                    selected_idx := min s2.selected_idx ((s2.files.length : Int) - 1) },
                  fs2)

/-- Embedding of `FkFiles.copy_file`: no guard on `..`, the selected
entry's path simply replaces the clipboard.  `none` is the IndexError for
a selection below `-len(files)`. -/
def copy_file (s : AppState) : Option AppState :=
  if s.selected_idx < (s.files.length : Int) then
    match pyIdx? s.files s.selected_idx with
    | none => none
    | some file =>
      some (show_message
        { s with clipboard := [file.full_path], clipboard_is_cut := false }
        "Copied to clipboard" false)
  else some s

/-- Embedding of `FkFiles.cut_file`: identical to copy but with the cut
flag set. -/
def cut_file (s : AppState) : Option AppState :=
  if s.selected_idx < (s.files.length : Int) then
    match pyIdx? s.files s.selected_idx with
    | none => none
    | some file =>
      some (show_message
        { s with clipboard := [file.full_path], clipboard_is_cut := true }
        "Cut to clipboard" false)
  else some s

/-- The `for src_path in self.clipboard` loop of `paste_files`: each item
is moved (`os.rename`) or copied (`cp` / `cp -r`), each failure being
caught and shown as a message. -/
def pasteLoop : Fs → AppState → List String → AppState × Fs
  | fs, s, [] => (s, fs)
  | fs, s, src :: rest =>
    let dst := pjoin s.current_path (basename src)
    if s.clipboard_is_cut then
      match fsRename fs src dst with
      | .error e => pasteLoop fs (show_message s ("Error: " ++ e) true) rest
      | .ok fs2 => pasteLoop fs2 (show_message s ("Moved: " ++ basename src) false) rest
    else
      match fsCopy fs src dst with
      | .error e => pasteLoop fs (show_message s ("Error: " ++ e) true) rest
      | .ok fs2 => pasteLoop fs2 (show_message s ("Copied: " ++ basename src) false) rest

/-- Embedding of `FkFiles.paste_files`: an empty clipboard only produces a
message; otherwise the loop runs, and afterwards — whatever the outcomes —
the clipboard is cleared and the listing refreshed. -/
def paste_files (fs : Fs) (s : AppState) : AppState × Fs :=
  if s.clipboard = [] then (show_message s "Clipboard is empty" true, fs)
  else
    let r := pasteLoop fs s s.clipboard
    (refresh_files r.2 { r.1 with clipboard := [] }, r.2)

/-- Embedding of `FkFiles.rename_file`: refuses `..`, otherwise renames
`full_path` to `os.path.join(current_path, new_name)` and on success
refreshes.  `none` is the uncaught IndexError of the subscript. -/
def rename_file (fs : Fs) (s : AppState) (new_name : String) : Option (AppState × Fs) :=
  if (s.files.length : Int) ≤ s.selected_idx then some (s, fs)
  else
    match pyIdx? s.files s.selected_idx with
    | none => none
    | some file =>
      if file.name = ".." then some (s, fs)
      else
        let old_path := file.full_path
        let new_path := pjoin s.current_path new_name
        match fsRename fs old_path new_path with
        | .error e => some (show_message s ("Error: " ++ e) true, fs)
        | .ok fs2 =>
          some (show_message (refresh_files fs2 s) ("Renamed to: " ++ new_name) false, fs2)

/-- Embedding of `FkFiles.create_directory`. -/
def create_directory (fs : Fs) (s : AppState) (dir_name : String) : AppState × Fs :=
  match fsMakedirs fs (pjoin s.current_path dir_name) with
  | .error e => (show_message s ("Error: " ++ e) true, fs)
  | .ok fs2 => (show_message (refresh_files fs2 s) ("Directory created: " ++ dir_name) false, fs2)

/-- Python's substring test `pat in hay` on character lists. -/
def subList (hay pat : List Char) : Bool :=
  pat.isPrefixOf hay ||
    match hay with
    | [] => false
    | _ :: t => subList t pat

/-- The match-collecting loop of `search_file`: scan the listing in order,
append each index whose lowercased name contains the lowercased pattern,
and break as soon as five matches have been collected. -/
def collectMatches (pat : String) : List Entry → Nat → List Nat → List Nat
  | [], _, acc => acc
  | f :: rest, idx, acc =>
    if subList (strLower f.name).data pat.data then
      let acc2 := acc ++ [idx]
      if 5 ≤ acc2.length then acc2 else collectMatches pat rest (idx + 1) acc2
    else collectMatches pat rest (idx + 1) acc

/-- Embedding of `FkFiles.search_file`: on a match, selection jumps to the
first matched index and the viewport to two rows above it; otherwise the
state is unchanged apart from the error message. -/
def search_file (s : AppState) (pattern : String) : AppState :=
  let pat := strLower pattern
  let ms := collectMatches pat s.files 0 []
  match ms with
  | [] => show_message s "No matches found" true
  | m :: _ =>
    show_message
      { s with selected_idx := (m : Int), top_idx := max 0 ((m : Int) - 2) }
      ("Found " ++ toString ms.length ++ " matches") false

/-- Embedding of `FkFiles.view_file`: only the not-a-file guard changes
the state; actually paging the content touches nothing the claims track. -/
def view_file (fs : Fs) (s : AppState) (file_path : String) : AppState :=
  if !fsIsfile fs file_path then show_message s "Not a file" true else s

/-- The four selection-moving inputs of `handle_input`: j / down, k / up,
the gg chord, and G. -/
inductive NavKey where
  | down
  | up
  | top
  | bottom
deriving DecidableEq, Repr

/-- The selection/viewport updates of `handle_input` (source lines
509-537), with `n` the listing length and `vis` the viewport height
`curses.LINES - 5`. -/
def moveStep (n : Nat) (vis sel top : Int) : NavKey → Int × Int
  | .down =>
    if sel < (n : Int) - 1 then
      let sel2 := sel + 1
      (sel2, if top + vis ≤ sel2 then top + 1 else top)
    else (sel, top)
  | .up =>
    if 0 < sel then
      let sel2 := sel - 1
      (sel2, if sel2 < top then top - 1 else top)
    else (sel, top)
  | .top => (0, 0)
  | .bottom => ((n : Int) - 1, max 0 ((n : Int) - vis))

/-- A sequence of selection-moving inputs applied to an initial
selection/viewport pair. -/
def runMoves (n : Nat) (vis : Int) (ks : List NavKey) (st : Int × Int) : Int × Int :=
  ks.foldl (fun p k => moveStep n vis p.1 p.2 k) st

/-- Result of one `handle_input` call: the new state (with the still
unconsumed keys), the quit signal (KeyboardInterrupt raised by `:q`), or
an uncaught exception that crashes the main loop. -/
inductive Step where
  | ok (s : AppState) (fs : Fs) (rest : List Nat)
  | quit
  | crash
deriving DecidableEq, Repr

/-- Model of Python `self.command.split()` for printable input: tokens
separated by runs of spaces. -/
def pySplit (s : String) : List String :=
  (s.splitOn " ").filter (fun t => t ≠ "")

/-- Embedding of `FkFiles.execute_command`.  `keys` is the stream of keys
still pending, which `show_about` consumes one of (its trailing wait for a
keypress). -/
def execute_command (env : Env) (fs : Fs) (s : AppState) (keys : List Nat) : Step :=
  if s.command.data.head? = some '/' then
    .ok (search_file s (String.mk (s.command.data.drop 1))) fs keys
  else
    match pySplit s.command with
    | [] => .ok s fs keys
    | cmd :: args =>
      if cmd = "q" then .quit
      else if cmd = "hdn" then
        let s1 := refresh_files fs { s with show_hidden := !s.show_hidden }
        .ok (show_message s1
          ("Hidden files: " ++ (if s1.show_hidden then "ON" else "OFF")) false) fs keys
      else if cmd = "mkdir" ∧ args ≠ [] then
        let r := create_directory fs s (String.intercalate " " args)
        .ok r.1 r.2 keys
      else if cmd = "ren" ∧ args ≠ [] then
        match rename_file fs s (String.intercalate " " args) with
        | none => .crash
        | some r => .ok r.1 r.2 keys
      else if cmd = "about" then .ok s fs (keys.drop 1)
      else if cmd = "ss" ∧ args ≠ [] then .ok (search_file s (String.intercalate " " args)) fs keys
      else if cmd = "p" ∧ args ≠ [] then
        let path := String.intercalate " " args
        if fsIsdir fs path then .ok (navigate_to env fs s path) fs keys
        else .ok (show_message s "Invalid path" true) fs keys
      else .ok (show_message s ("Unknown command: " ++ cmd) true) fs keys

/-- Embedding of `FkFiles.handle_input` over a stream of key codes, with
`vis` standing for `curses.LINES - 5`.  Key codes: 409 KEY_MOUSE (mouse
handling is not modelled — no claim concerns it), 27 Escape, 263/127
Backspace, 10 Enter, and the ASCII codes of j k l h g G : / ? d y p v
(106 107 108 104 103 71 58 47 63 100 121 112 118); 258/259 are
KEY_DOWN/KEY_UP.  An empty stream models `getch` having nothing to
deliver: the state is returned unchanged.  Each two-key chord consumes
its second key from the stream whether or not it matches, exactly like
the inner blocking `getch` of the source. -/
def handle_input (env : Env) (vis : Int) (s : AppState) (fs : Fs) : List Nat → Step
  | [] => .ok s fs []
  | key :: rest =>
    if key = 409 then .ok s fs rest
    else if s.command_mode then
      if key = 27 then .ok { s with command_mode := false, command := "" } fs rest
      else if key = 263 ∨ key = 127 then
        .ok { s with command := String.mk s.command.data.dropLast } fs rest
      else if key = 10 then
        match execute_command env fs s rest with
        | .quit => .quit
        | .crash => .crash
        | .ok s1 fs1 rest1 => .ok { s1 with command_mode := false, command := "" } fs1 rest1
      else if 32 ≤ key ∧ key ≤ 126 then
        .ok { s with command := s.command.push (Char.ofNat key) } fs rest
      else .ok s fs rest
    else if key = 106 ∨ key = 258 then
      let p := moveStep s.files.length vis s.selected_idx s.top_idx .down
      .ok { s with selected_idx := p.1, top_idx := p.2 } fs rest
    else if key = 107 ∨ key = 259 then
      let p := moveStep s.files.length vis s.selected_idx s.top_idx .up
      .ok { s with selected_idx := p.1, top_idx := p.2 } fs rest
    else if key = 108 ∨ key = 10 then
      if 0 < s.files.length then
        match pyIdx? s.files s.selected_idx with
        | none => .crash
        | some file => .ok (open_file env fs s file.full_path) fs rest
      else .ok s fs rest
    else if key = 104 then
      if s.current_path ≠ "/" then
        .ok (navigate_to env fs s (pjoin s.current_path "..")) fs rest
      else .ok s fs rest
    else if key = 103 then
      match rest with
      | [] => .ok s fs []
      | k2 :: rest2 =>
        if k2 = 103 then
          let p := moveStep s.files.length vis s.selected_idx s.top_idx .top
          .ok { s with selected_idx := p.1, top_idx := p.2 } fs rest2
        else .ok s fs rest2
    else if key = 71 then
      let p := moveStep s.files.length vis s.selected_idx s.top_idx .bottom
      .ok { s with selected_idx := p.1, top_idx := p.2 } fs rest
    else if key = 58 then .ok { s with command_mode := true, command := "" } fs rest
    else if key = 47 then .ok { s with command_mode := true, command := "/" } fs rest
    else if key = 63 then .ok s fs (rest.drop 1)
    else if key = 100 then
      match rest with
      | [] => .ok s fs []
      | k2 :: rest2 =>
        if k2 = 100 then
          match delete_file fs s with
          | none => .crash
          | some r => .ok r.1 r.2 rest2
        else .ok s fs rest2
    else if key = 121 then
      match rest with
      | [] => .ok s fs []
      | k2 :: rest2 =>
        if k2 = 121 then
          match copy_file s with
          | none => .crash
          | some s1 => .ok s1 fs rest2
        else .ok s fs rest2
    else if key = 112 then
      match rest with
      | [] => .ok s fs []
      | k2 :: rest2 =>
        if k2 = 112 then
          let r := paste_files fs s
          .ok r.1 r.2 rest2
        else .ok s fs rest2
    else if key = 118 then
      if 0 < s.files.length then
        match pyIdx? s.files s.selected_idx with
        | none => .crash
        | some file =>
          if !file.is_dir then .ok (view_file fs s file.full_path) fs rest
          else .ok s fs rest
      else .ok s fs rest
    else .ok s fs rest

/-- The invariant the spec requires of the selection and the viewport:
selection inside the listing, nonnegative scroll offset, and the
selection inside the visible window. -/
def navInv (n : Nat) (vis : Int) (st : Int × Int) : Prop :=
  0 ≤ st.1 ∧ st.1 ≤ (n : Int) - 1 ∧ 0 ≤ st.2 ∧ st.2 ≤ st.1 ∧ st.1 ≤ st.2 + vis

/-- Declarative version of the search predicate, from the spec's words:
index `i` of the listing matches when the lowercased name at `i` contains
the lowercased pattern as a substring. -/
def matchB (pat : String) (files : List Entry) (i : Nat) : Bool :=
  match files[i]? with
  | some f => subList (strLower f.name).data pat.data
  | none => false

/-- Declarative version of the search scan, from the spec's words: all
matching indices, in listing order. -/
def specMatches (pat : String) (files : List Entry) : List Nat :=
  (List.range files.length).filter (matchB pat files)

/-- Matching indices of a listing suffix whose first entry has index
`start` (bridge between the imperative scan and `specMatches`). -/
def allMatchesFrom (pat : String) : List Entry → Nat → List Nat
  | [], _ => []
  | f :: rest, i =>
    if subList (strLower f.name).data pat.data then i :: allMatchesFrom pat rest (i + 1)
    else allMatchesFrom pat rest (i + 1)

/-! Concrete fixtures used by the counterexamples and witnesses. -/

/-- A plain readable file of the given size (mode bits 0o644). -/
def fileNode (sz : Nat) : FileNode :=
  { isDir := false, readable := true, size := sz, mtime := 5, modeBits := 420 }

/-- A readable directory (directories really stat with a nonzero
`st_size`; 4096 is the usual value). -/
def dirNode : FileNode :=
  { isDir := true, readable := true, size := 4096, mtime := 5, modeBits := 16877 }

/-- A directory whose listing is denied. -/
def lockedNode : FileNode := { dirNode with readable := false }

/-- Demo filesystem: a root with one loose file, a home directory with
two files and two subdirectories (one non-empty), an unreadable
directory, and a /tmp. -/
def fsDemo : Fs :=
  [("/", dirNode), ("/b.txt", fileNode 10), ("/A", dirNode), ("/home", dirNode),
   ("/home/a.txt", fileNode 3), ("/home/zebra.txt", fileNode 7), ("/home/Docs", dirNode),
   ("/home/d", dirNode), ("/home/d/x.txt", fileNode 1), ("/locked", lockedNode),
   ("/tmp", dirNode)]

/-- Session state as built by `__init__` before the first refresh, with
the working directory at /home. -/
def baseState : AppState :=
  { current_path := "/home", files := [], selected_idx := 0, top_idx := 0,
    command_mode := false, command := "", message := "", message_is_error := false,
    show_hidden := false, clipboard := [], clipboard_is_cut := false }

/-- Environment where the navigated paths are already absolute and
normalized (abspath is the identity there) and the external opener
succeeds. -/
def envId : Env := { abspath := fun p => p, openErr := fun _ => none }

/-- The state right after the initial refresh of /home: listing
[.., d, Docs, a.txt, zebra.txt]. -/
def homeState : AppState := refresh_files fsDemo baseState

/-- The scenario listing of the spec: ["..", "docs", "readme.txt"] with
docs a directory and readme.txt a 120-byte file, selection on the last
entry (after jump_bottom). -/
def sDocs : AppState :=
  { baseState with
    files :=
      [dotdotEntry "/home",
       { name := "docs", is_dir := true, size := 4096, mtime := 5,
         mode := "drwxr-xr-x", full_path := "/home/docs" },
       { name := "readme.txt", is_dir := false, size := 120, mtime := 5,
         mode := "-rw-r--r--", full_path := "/home/readme.txt" }],
    selected_idx := 2 }

/-- Home listing with the selection on the plain file a.txt (index 3). -/
def sA : AppState := { homeState with selected_idx := 3 }

/-- Home state carrying a cut clipboard whose source no longer exists, so
the paste operation must fail. -/
def sCut : AppState :=
  { homeState with clipboard := ["/gone.txt"], clipboard_is_cut := true }

/-! Helper lemmas about `refresh_files` and `pasteLoop`. -/

theorem pySortSlice1_cons (x : Entry) (xs : List Entry) :
    pySortSlice1 (x :: xs) = x :: List.insertionSort entryLe xs := rfl

theorem refresh_files_clipboard (fs : Fs) (s : AppState) :
    (refresh_files fs s).clipboard = s.clipboard := by
  unfold refresh_files
  cases fsListdir fs s.current_path <;> simp [show_message]

theorem refresh_files_clipboard_is_cut (fs : Fs) (s : AppState) :
    (refresh_files fs s).clipboard_is_cut = s.clipboard_is_cut := by
  unfold refresh_files
  cases fsListdir fs s.current_path <;> simp [show_message]

theorem refresh_files_selected_idx (fs : Fs) (s : AppState) :
    (refresh_files fs s).selected_idx = s.selected_idx := by
  unfold refresh_files
  cases fsListdir fs s.current_path <;> simp [show_message]

theorem refresh_files_current_path (fs : Fs) (s : AppState) :
    (refresh_files fs s).current_path = s.current_path := by
  unfold refresh_files
  cases fsListdir fs s.current_path <;> simp [show_message]

theorem refresh_files_message_ok (fs : Fs) (s : AppState) (ns : List String)
    (h : fsListdir fs s.current_path = .ok ns) :
    (refresh_files fs s).message = s.message ∧
      (refresh_files fs s).message_is_error = s.message_is_error := by
  unfold refresh_files
  rw [h]
  exact ⟨rfl, rfl⟩

theorem refresh_files_files_congr (fs : Fs) (s t : AppState)
    (h1 : s.current_path = t.current_path) (h2 : s.show_hidden = t.show_hidden) :
    (refresh_files fs s).files = (refresh_files fs t).files := by
  unfold refresh_files
  rw [h1, h2]
  cases fsListdir fs t.current_path <;> simp [show_message]

theorem pasteLoop_fields (l : List String) : ∀ (fs : Fs) (s : AppState),
    (pasteLoop fs s l).1.current_path = s.current_path ∧
    (pasteLoop fs s l).1.show_hidden = s.show_hidden ∧
    (pasteLoop fs s l).1.clipboard = s.clipboard ∧
    (pasteLoop fs s l).1.files = s.files := by
  induction l with
  | nil => intro fs s; exact ⟨rfl, rfl, rfl, rfl⟩
  | cons src rest ih =>
    intro fs s
    unfold pasteLoop
    cases hc : s.clipboard_is_cut <;> simp only [hc, Bool.false_eq_true, if_true, if_false]
    · cases hr : fsCopy fs src (pjoin s.current_path (basename src)) <;>
        simpa [show_message] using ih _ _
    · cases hr : fsRename fs src (pjoin s.current_path (basename src)) <;>
        simpa [show_message] using ih _ _

/-! Claim C1 — navigation to an unreadable directory -/

/-- C1, counterexample: navigating from /home to the unreadable directory
/locked does not keep the prior location — `current_path` becomes /locked
and the listing collapses to the `..`-only listing, exactly what the claim
says must never happen. -/
theorem navigate_fail_counterexample :
    (navigate_to envId fsDemo homeState "/locked").current_path = "/locked" ∧
    homeState.current_path = "/home" ∧
    (navigate_to envId fsDemo homeState "/locked").files = [dotdotEntry "/locked"] ∧
    homeState.files ≠ [dotdotEntry "/locked"] := by
  refine ⟨by decide, by decide, by decide, by decide⟩

/-- C1, amended: when the listing of the target fails, `navigate_to`
still commits the new current path and the selection reset; the listing
becomes just the synthetic `..` entry (empty at the root) and the OS
error is shown as an error message. -/
theorem navigate_to_listfail (env : Env) (fs : Fs) (s : AppState) (path e : String)
    (h : fsListdir fs (env.abspath path) = .error e) :
    navigate_to env fs s path =
      show_message
        { s with
            current_path := env.abspath path, selected_idx := 0, top_idx := 0,
            files := if env.abspath path ≠ "/" then [dotdotEntry (env.abspath path)] else [] }
        ("Error: " ++ e) true := by
  unfold navigate_to refresh_files
  simp only [h]

/-- Witness for C1's amended theorem at the /locked fixture. -/
theorem navigate_to_listfail_witness :
    navigate_to envId fsDemo homeState "/locked" =
      show_message
        { homeState with
            current_path := "/locked", selected_idx := 0, top_idx := 0,
            files := [dotdotEntry "/locked"] }
        "Error: [Errno 13] Permission denied: /locked" true := by
  have h := navigate_to_listfail envId fsDemo homeState "/locked"
    "[Errno 13] Permission denied: /locked" (by rfl)
  rw [h]
  decide

/-! Claim C2 — sort order of the listing -/

/-- C2, failing input: at the filesystem root there is no `..` entry, yet
`refresh_files` still sorts only `files[1:]`, so the first entry that
`os.listdir` happens to return — here the plain file b.txt — stays at
index 0 ahead of every directory, violating directories-before-files. -/
theorem root_listing_unsorted :
    ((refresh_files fsDemo { baseState with current_path := "/" }).files.map
        (fun e => (e.name, e.is_dir))) =
      [("b.txt", false), ("A", true), ("home", true), ("locked", true), ("tmp", true)] ∧
    ((refresh_files fsDemo { baseState with current_path := "/" }).files.head?.map
        Entry.is_dir) = some false := by
  refine ⟨by decide, by decide⟩

/-! Claim C8 — the stored size field -/

/-- C8, counterexample: directory entries produced by `refresh_files`
store the stat'ed `st_size` (4096 here), not 0; only the renderer prints
"<DIR>" instead of the size.  The synthetic `..` entry does have size 0. -/
theorem dir_size_counterexample :
    ((refresh_files fsDemo baseState).files.map (fun e => (e.name, e.is_dir, e.size))) =
      [("..", true, 0), ("d", true, 4096), ("Docs", true, 4096),
       ("a.txt", false, 3), ("zebra.txt", false, 7)] ∧
    (((refresh_files fsDemo baseState).files[1]?).map (fun e => (e.is_dir, e.size))) =
      some (true, 4096) := by
  refine ⟨by decide, by decide⟩

/-- C8, amended: the synthetic `..` entry (index 0 whenever the path is
not the root) has size 0, and every other listed entry — directory or
file — stores exactly the `st_size` of its stat result. -/
theorem size_field_amended (fs : Fs) (s : AppState) (h : s.current_path ≠ "/") :
    (refresh_files fs s).files.head? = some (dotdotEntry s.current_path) ∧
    ∀ e ∈ (refresh_files fs s).files.tail,
      ∃ n, fsLookup fs e.full_path = some n ∧ e.size = n.size := by
  unfold refresh_files
  cases hl : fsListdir fs s.current_path with
  | error e => simp [h, show_message]
  | ok names =>
    rw [if_pos h]
    simp only [List.singleton_append, pySortSlice1_cons, List.head?_cons, List.tail_cons]
    constructor
    · trivial
    · intro e he
      have hmem : e ∈ names.filterMap (fun nm =>
          if !s.show_hidden && startsWithDot nm then none
          else statEntry fs s.current_path nm) :=
        (List.perm_insertionSort entryLe _).mem_iff.mp he
      rcases List.mem_filterMap.mp hmem with ⟨nm, _, hnm⟩
      by_cases hh : (!s.show_hidden && startsWithDot nm) = true
      · simp [hh] at hnm
      · simp only [hh, if_false, Bool.false_eq_true] at hnm
        unfold statEntry at hnm
        cases hst : fsStat fs (pjoin s.current_path nm) with
        | error msg => rw [hst] at hnm; simp at hnm
        | ok n =>
          rw [hst] at hnm
          simp only [Option.some.injEq] at hnm
          refine ⟨n, ?_, ?_⟩
          · have hfp : e.full_path = pjoin s.current_path nm := by rw [← hnm]
            rw [hfp]
            unfold fsStat at hst
            cases hlk : fsLookup fs (pjoin s.current_path nm) with
            | none => rw [hlk] at hst; simp at hst
            | some m => rw [hlk] at hst; simp at hst; rw [hst]
          · rw [← hnm]

/-- Witness for C8's amended theorem at the /home fixture. -/
theorem size_field_amended_witness :
    (refresh_files fsDemo baseState).files.head? = some (dotdotEntry "/home") ∧
    ∀ e ∈ (refresh_files fsDemo baseState).files.tail,
      ∃ n, fsLookup fsDemo e.full_path = some n ∧ e.size = n.size := by
  have h := size_field_amended fsDemo baseState (by decide)
  exact h

/-! Claim C3 — selection and viewport bounds -/

/-- C3, counterexample: on the empty listing (reachable at the filesystem
root), the G key sets `selected_idx` to `len(files) - 1 = -1`, outside
`[0, len-1]` and below `top_idx`. -/
theorem nav_bounds_empty_counterexample :
    (runMoves 0 5 [NavKey.bottom] (0, 0)).1 = -1 ∧
    ¬ (0 ≤ (runMoves 0 5 [NavKey.bottom] (0, 0)).1) ∧
    ¬ ((runMoves 0 5 [NavKey.bottom] (0, 0)).2 ≤ (runMoves 0 5 [NavKey.bottom] (0, 0)).1) := by
  refine ⟨by decide, by decide, by decide⟩

/-- A single selection-moving key preserves the selection/viewport
invariant on a non-empty listing with a positive viewport. -/
theorem moveStep_navInv (n : Nat) (vis sel top : Int) (k : NavKey)
    (hn : 1 ≤ n) (hv : 1 ≤ vis) (hinv : navInv n vis (sel, top)) :
    navInv n vis (moveStep n vis sel top k) := by
  obtain ⟨h1, h2, h3, h4, h5⟩ := hinv
  cases k <;> simp only [navInv, moveStep] <;> (try split_ifs) <;> (try dsimp only) <;> omega

/-- Any sequence of selection-moving keys preserves the invariant. -/
theorem runMoves_navInv (n : Nat) (vis : Int) (hn : 1 ≤ n) (hv : 1 ≤ vis) :
    ∀ (ks : List NavKey) (st : Int × Int),
      navInv n vis st → navInv n vis (runMoves n vis ks st) := by
  intro ks
  induction ks with
  | nil => intro st h; exact h
  | cons k ks ih =>
    intro st h
    have h1 := moveStep_navInv n vis st.1 st.2 k hn hv h
    simpa [runMoves, List.foldl_cons] using ih _ h1

/-- C3, amended: for every NON-empty listing, starting from the reset
selection, every sequence of j / k / gg / G inputs keeps `selected_idx`
inside `[0, len-1]` and keeps `top_idx` with
`0 ≤ top_idx ≤ selected_idx ≤ top_idx + visible_rows` (the source uses
`visible_rows = curses.LINES - 5 ≥ 5 ≥ 1`).  On the empty listing the
bounds fail, as the counterexample shows. -/
theorem nav_invariant (n : Nat) (vis : Int) (ks : List NavKey)
    (hn : 1 ≤ n) (hv : 1 ≤ vis) :
    navInv n vis (runMoves n vis ks (0, 0)) := by
  apply runMoves_navInv n vis hn hv
  simp only [navInv]
  refine ⟨by omega, by omega, by omega, by omega, by omega⟩

/-- Witness for C3's amended theorem: a 3-entry listing and a mixed key
sequence. -/
theorem nav_invariant_witness :
    navInv 3 5
      (runMoves 3 5 [NavKey.bottom, NavKey.up, NavKey.down, NavKey.top, NavKey.down] (0, 0)) :=
  nav_invariant 3 5 [NavKey.bottom, NavKey.up, NavKey.down, NavKey.top, NavKey.down]
    (by decide) (by decide)

/-! Claim C4 — a broken d-chord leaks nothing -/

/-- C4: in Normal mode, the input `d` followed by any key other than `d`
consumes both keys, deletes nothing, dispatches nothing for the second
key, and leaves the whole state (mode included) and the filesystem
unchanged. -/
theorem chord_drop (env : Env) (vis : Int) (s : AppState) (fs : Fs) (k : Nat)
    (rest : List Nat) (hmode : s.command_mode = false) (hk : k ≠ 100) :
    handle_input env vis s fs (100 :: k :: rest) = .ok s fs rest := by
  simp [handle_input, hmode, hk]

/-- Witness for C4: the dropped second key is j (106), which would have
moved the selection had it been dispatched. -/
theorem chord_drop_witness :
    handle_input envId 5 homeState fsDemo [100, 106, 103] = .ok homeState fsDemo [103] :=
  chord_drop envId 5 homeState fsDemo 106 [103] (by decide) (by decide)

/-! Claim C5 — paste always consumes the clipboard -/

/-- C5: with an empty clipboard paste only reports the error, changing
neither clipboard nor listing; with a non-empty clipboard the clipboard
is emptied whatever the outcome and the listing is the refresh of the
post-paste filesystem; and on a failing cut-paste the error is the shown
message while the clipboard is still emptied (the filesystem untouched). -/
theorem paste_clipboard_contract (fs : Fs) (s : AppState) :
    (s.clipboard = [] → paste_files fs s = (show_message s "Clipboard is empty" true, fs)) ∧
    (s.clipboard ≠ [] →
      (paste_files fs s).1.clipboard = [] ∧
      (paste_files fs s).1.files = (refresh_files (paste_files fs s).2 s).files) ∧
    (∀ src e ns, s.clipboard = [src] → s.clipboard_is_cut = true →
      fsRename fs src (pjoin s.current_path (basename src)) = .error e →
      fsListdir fs s.current_path = .ok ns →
      (paste_files fs s).2 = fs ∧
      (paste_files fs s).1.message = "Error: " ++ e ∧
      (paste_files fs s).1.message_is_error = true) := by
  refine ⟨?_, ?_, ?_⟩
  · intro h
    simp only [paste_files, if_pos h]
  · intro h
    have hr := pasteLoop_fields s.clipboard fs s
    simp only [paste_files, if_neg h]
    constructor
    · rw [refresh_files_clipboard]
    · exact refresh_files_files_congr _ _ _ hr.1 hr.2.1
  · intro src e ns h1 h2 h3 h4
    have hne : s.clipboard ≠ [] := by rw [h1]; exact List.cons_ne_nil _ _
    have hloop : pasteLoop fs s [src] = (show_message s ("Error: " ++ e) true, fs) := by
      simp [pasteLoop, h2, h3]
    simp only [paste_files, h1, hloop]
    rw [if_neg (List.cons_ne_nil src [])]
    dsimp only
    refine ⟨rfl, ?_, ?_⟩
    · exact (refresh_files_message_ok fs
        { show_message s ("Error: " ++ e) true with clipboard := [] } ns h4).1
    · exact (refresh_files_message_ok fs
        { show_message s ("Error: " ++ e) true with clipboard := [] } ns h4).2

/-- Witness for C5 at the fixture where the cut source /gone.txt is
missing: the paste fails, yet the clipboard ends empty. -/
theorem paste_clipboard_contract_witness :
    (paste_files fsDemo sCut).1.clipboard = [] ∧
    (paste_files fsDemo sCut).2 = fsDemo ∧
    (paste_files fsDemo sCut).1.message =
      "Error: [Errno 2] No such file or directory: /gone.txt" ∧
    (paste_files fsDemo sCut).1.message_is_error = true := by
  have h2 := ((paste_clipboard_contract fsDemo sCut).2.1 (by decide)).1
  have h3 := (paste_clipboard_contract fsDemo sCut).2.2 "/gone.txt"
    "[Errno 2] No such file or directory: /gone.txt"
    (fsChildren fsDemo "/home") (by decide) (by decide) (by rfl) (by rfl)
  exact ⟨h2, h3.1, h3.2.1, h3.2.2⟩

/-! Claim C6 — delete refusals and re-clamping -/

/-- C6: delete refuses the synthetic `..` entry silently; a directory
whose listing is non-empty is refused with the "Directory not empty!"
error and both the filesystem and the listing stay untouched; removing a
file goes through `os.unlink` unconditionally, and after a successful
removal the selection is re-clamped to the refreshed listing's length. -/
theorem delete_guards (fs : Fs) (s : AppState) (e : Entry)
    (hi : pyIdx? s.files s.selected_idx = some e)
    (hlt : s.selected_idx < (s.files.length : Int)) :
    (e.name = ".." → delete_file fs s = some (s, fs)) ∧
    (∀ kids, e.name ≠ ".." → e.is_dir = true → fsListdir fs e.full_path = .ok kids →
      kids ≠ [] →
      delete_file fs s = some (show_message s "Directory not empty!" true, fs)) ∧
    (∀ fs2, e.name ≠ ".." → e.is_dir = false → fsUnlink fs e.full_path = .ok fs2 →
      ∃ s2, delete_file fs s = some (s2, fs2) ∧
        s2.selected_idx = min s.selected_idx ((s2.files.length : Int) - 1)) := by
  have hg : ¬ ((s.files.length : Int) ≤ s.selected_idx) := not_le.mpr hlt
  refine ⟨?_, ?_, ?_⟩
  · intro h
    simp [delete_file, if_neg hg, hi, h]
  · intro kids h hd hl hk
    simp [delete_file, if_neg hg, hi, h, hd, hl, List.length_eq_zero, hk]
  · intro fs2 h hd hu
    simp only [delete_file, if_neg hg, hi, h, hd, hu, if_false, ite_false,
      Bool.false_eq_true, if_neg]
    refine ⟨_, rfl, ?_⟩
    dsimp only
    rw [refresh_files_selected_idx]
    rfl

/-- Witness for C6 on the non-empty directory /home/d (listing index 1). -/
theorem delete_guards_witness :
    delete_file fsDemo { homeState with selected_idx := 1 } =
      some (show_message { homeState with selected_idx := 1 } "Directory not empty!" true,
        fsDemo) := by
  exact (delete_guards fsDemo { homeState with selected_idx := 1 }
    { name := "d", is_dir := true, size := 4096, mtime := 5, mode := "drwxr-xr-x",
      full_path := "/home/d" }
    (by decide) (by decide)).2.1 ["x.txt"] (by decide) (by decide) (by rfl) (by decide)

/-! Claim C7 — search semantics -/

/-- The imperative match-collecting loop computes the declaratively
matched indices of the listing suffix, capped at the room left in the
accumulator. -/
theorem collectMatches_eq (pat : String) :
    ∀ (files : List Entry) (start : Nat) (acc : List Nat), acc.length < 5 →
      collectMatches pat files start acc =
        acc ++ (allMatchesFrom pat files start).take (5 - acc.length) := by
  intro files
  induction files with
  | nil => intro start acc h; simp [collectMatches, allMatchesFrom]
  | cons f rest ih =>
    intro start acc h
    by_cases hm : subList (strLower f.name).data pat.data = true
    · simp only [collectMatches, allMatchesFrom, hm, if_true]
      by_cases h5 : 5 ≤ (acc ++ [start]).length
      · rw [if_pos h5]
        have hlen : acc.length = 4 := by
          simp only [List.length_append, List.length_singleton] at h5
          omega
        rw [hlen]
        simp
      · rw [if_neg h5]
        have h5' : (acc ++ [start]).length < 5 := Nat.lt_of_not_le h5
        rw [ih (start + 1) (acc ++ [start]) h5']
        have hsub : 5 - acc.length = (5 - (acc ++ [start]).length) + 1 := by
          simp only [List.length_append, List.length_singleton]
          omega
        rw [hsub, List.take_succ_cons, List.append_assoc, List.singleton_append]
    · simp only [collectMatches, allMatchesFrom, hm, if_false, Bool.false_eq_true]
      exact ih (start + 1) acc h

/-- The offset scan agrees with filtering the index range. -/
theorem allMatchesFrom_spec (pat : String) :
    ∀ (files : List Entry) (start : Nat),
      allMatchesFrom pat files start =
        ((List.range files.length).filter (matchB pat files)).map (fun i => i + start) := by
  intro files
  induction files with
  | nil => intro start; simp [allMatchesFrom]
  | cons f rest ih =>
    intro start
    have hcomp : matchB pat (f :: rest) ∘ Nat.succ = matchB pat rest := by
      funext i
      simp [matchB, Function.comp, List.getElem?_cons_succ]
    have hzero : matchB pat (f :: rest) 0 = subList (strLower f.name).data pat.data := by
      simp [matchB]
    have hfun : ((fun i => i + start) ∘ Nat.succ) = fun (i : Nat) => i + (start + 1) := by
      funext i
      simp [Function.comp]
      omega
    rw [List.length_cons, List.range_succ_eq_map, List.filter_cons, hzero]
    by_cases hm : subList (strLower f.name).data pat.data = true
    · simp only [allMatchesFrom, hm, if_true, List.map_cons, Nat.zero_add,
        List.filter_map, hcomp, List.map_map, hfun]
      rw [ih (start + 1)]
    · simp only [allMatchesFrom, hm, if_false, Bool.false_eq_true,
        List.filter_map, hcomp, List.map_map, hfun]
      rw [ih (start + 1)]

/-- C7: search scans the listing in order for case-insensitive substring
matches, keeps at most the first five, jumps the selection to the first
match with the viewport two rows above it, and reports the match count;
with no match only the error message changes. -/
theorem search_spec (s : AppState) (pattern : String) :
    (specMatches (strLower pattern) s.files = [] →
      search_file s pattern = show_message s "No matches found" true) ∧
    (∀ i tl, specMatches (strLower pattern) s.files = i :: tl →
      search_file s pattern =
        show_message
          { s with selected_idx := (i : Int), top_idx := max 0 ((i : Int) - 2) }
          ("Found " ++ toString (min 5 (specMatches (strLower pattern) s.files).length) ++
            " matches") false) := by
  have hc : collectMatches (strLower pattern) s.files 0 [] =
      (specMatches (strLower pattern) s.files).take 5 := by
    rw [collectMatches_eq (strLower pattern) s.files 0 [] (by decide)]
    rw [allMatchesFrom_spec]
    simp [specMatches]
  constructor
  · intro h
    simp only [search_file, hc, h, List.take_nil]
  · intro i tl h
    have ht : (i :: tl).take 5 = i :: tl.take 4 := rfl
    have hlen : (i :: tl.take 4).length = min 5 (i :: tl).length := by
      simp [List.length_take]
      omega
    simp only [search_file, hc, h, ht, hlen]

/-- Witness for C7, the spec's own scenario: in the listing
[.., docs, readme.txt], searching "doc" selects docs (index 1), scrolls
to the top, and reports "Found 1 matches". -/
theorem search_spec_witness :
    search_file sDocs "doc" =
      show_message { sDocs with selected_idx := 1, top_idx := 0 } "Found 1 matches" false := by
  have h := (search_spec sDocs "doc").2 1 [] (by decide)
  rw [h]
  decide

/-! Claim C9 — rename and the parent directory -/

theorem dropWhile_append_all {p : Char → Bool} :
    ∀ (l1 l2 : List Char), (∀ c ∈ l1, p c = true) →
      List.dropWhile p (l1 ++ l2) = List.dropWhile p l2 := by
  intro l1
  induction l1 with
  | nil => intro l2 h; rfl
  | cons c cs ih =>
    intro l2 h
    have hc : p c = true := h c (List.mem_cons_self c cs)
    rw [List.cons_append, List.dropWhile_cons, if_pos hc]
    exact ih l2 (fun d hd => h d (List.mem_cons_of_mem c hd))

/-- Joining a nonempty separator-free name onto a normalized directory
path produces a path whose dirname is that directory again. -/
theorem dirname_pjoin (cur nm : String) (hnm : nm ≠ "") (hslash : '/' ∉ nm.data)
    (hcur : cur = "/" ∨ (cur ≠ "" ∧ cur.data.getLast? ≠ some '/')) :
    dirname (pjoin cur nm) = cur := by
  have hdata : nm.data ≠ [] := by
    intro hd
    apply hnm
    cases nm
    simp at hd
    rw [hd]
  have hhead : ¬ (nm.data.head? = some '/') := by
    cases hd : nm.data with
    | nil => simp
    | cons c cs =>
      simp only [List.head?_cons, Option.some.injEq]
      intro hcc
      apply hslash
      rw [hd, hcc]
      exact List.mem_cons_self _ _
  have hall : ∀ c ∈ nm.data.reverse, notSlash c = true := by
    intro c hcm
    have : c ∈ nm.data := List.mem_reverse.mp hcm
    simp only [notSlash, decide_eq_true_eq]
    intro hcc
    exact hslash (hcc ▸ this)
  rcases hcur with hroot | ⟨hne, hlast⟩
  · subst hroot
    have hcond : ("/" : String) = "" ∨ ("/" : String).data.getLast? = some '/' := by
      right; rfl
    rw [pjoin, if_neg hhead, if_pos hcond]
    show dirname ("/" ++ nm) = "/"
    rw [dirname]
    have hd : ("/" ++ nm).data = '/' :: nm.data := by
      rw [String.data_append]; rfl
    rw [hd]
    simp only [List.reverse_cons]
    rw [dropWhile_append_all _ _ hall]
    simp [notSlash]
  · have hcond : ¬ (cur = "" ∨ cur.data.getLast? = some '/') := by
      intro hor
      rcases hor with h1 | h2
      · exact hne h1
      · exact hlast h2
    rw [pjoin, if_neg hhead, if_neg hcond]
    rw [dirname]
    have hd : (cur ++ "/" ++ nm).data = cur.data ++ '/' :: nm.data := by
      rw [String.data_append, String.data_append, List.append_assoc]
      rfl
    rw [hd]
    have hrev : (cur.data ++ '/' :: nm.data).reverse =
        nm.data.reverse ++ ('/' :: cur.data.reverse) := by
      rw [List.reverse_append, List.reverse_cons, List.append_assoc]
      simp
    rw [hrev, dropWhile_append_all _ _ hall]
    have hstop : List.dropWhile notSlash ('/' :: cur.data.reverse) = '/' :: cur.data.reverse := by
      rw [List.dropWhile_cons]
      simp [notSlash]
    rw [hstop]
    simp only [List.drop_one, List.tail_cons, List.reverse_reverse]
    have hcd : cur.data ≠ [] := by
      intro hd2
      apply hne
      cases cur
      simp at hd2
      rw [hd2]
    rw [if_neg hcd]

/-- C9: rename refuses the synthetic `..` entry, and whenever the typed
name is nonempty and free of path separators the destination
`os.path.join(current_path, new_name)` stays directly inside
`current_path` — the parent directory of the original entry, whose
`full_path` is itself the join of `current_path` and a separator-free
name.  (A name containing '/' or an absolute name escapes the parent, as
the counterexample shows.) -/
theorem rename_parent_amended (fs : Fs) (s : AppState) (nn : String) (e : Entry)
    (hi : pyIdx? s.files s.selected_idx = some e)
    (hlt : s.selected_idx < (s.files.length : Int)) :
    (e.name = ".." → rename_file fs s nn = some (s, fs)) ∧
    (nn ≠ "" → '/' ∉ nn.data →
      (s.current_path = "/" ∨
        (s.current_path ≠ "" ∧ s.current_path.data.getLast? ≠ some '/')) →
      dirname (pjoin s.current_path nn) = s.current_path ∧
      (e.name ≠ "" → '/' ∉ e.name.data → e.full_path = pjoin s.current_path e.name →
        dirname (pjoin s.current_path nn) = dirname e.full_path)) := by
  have hg : ¬ ((s.files.length : Int) ≤ s.selected_idx) := not_le.mpr hlt
  refine ⟨?_, ?_⟩
  · intro h
    simp [rename_file, if_neg hg, hi, h]
  · intro h1 h2 h3
    have hd := dirname_pjoin s.current_path nn h1 h2 h3
    refine ⟨hd, ?_⟩
    intro g1 g2 g3
    rw [hd, g3, dirname_pjoin s.current_path e.name g1 g2 h3]

/-- C9, counterexample: `:ren /tmp/stolen.txt` on /home/a.txt really
renames to the absolute path — `os.path.join` discards the current
directory, the file leaves /home, and the resulting path's parent is
/tmp, not the original parent /home. -/
theorem rename_escape_counterexample :
    ((rename_file fsDemo sA "/tmp/stolen.txt").map
        (fun r => (fsLookup r.2 "/tmp/stolen.txt").isSome)) = some true ∧
    ((rename_file fsDemo sA "/tmp/stolen.txt").map
        (fun r => (fsLookup r.2 "/home/a.txt").isSome)) = some false ∧
    dirname (pjoin sA.current_path "/tmp/stolen.txt") = "/tmp" ∧
    dirname "/home/a.txt" = "/home" ∧
    sA.current_path = "/home" := by
  refine ⟨by decide, by decide, by decide, by decide, by decide⟩

/-- Witness for C9's amended theorem: the separator-free name b.txt keeps
the destination inside /home. -/
theorem rename_parent_amended_witness :
    dirname (pjoin sA.current_path "b.txt") = sA.current_path ∧
    dirname (pjoin sA.current_path "b.txt") = dirname "/home/a.txt" := by
  have h := (rename_parent_amended fsDemo sA "b.txt"
    { name := "a.txt", is_dir := false, size := 3, mtime := 5, mode := "-rw-r--r--",
      full_path := "/home/a.txt" } (by decide) (by decide)).2
    (by decide) (by decide) (Or.inr ⟨by decide, by decide⟩)
  exact ⟨h.1, h.2 (by decide) (by decide) (by decide)⟩

/-! Claim C10 — copy and cut accept the synthetic parent entry -/

/-- C10: unlike delete and rename, which silently refuse `..`, copy and
cut have no guard: they load the `..` path into the clipboard, set the
cut flag accordingly, and report success. -/
theorem copy_cut_accept_dotdot (fs : Fs) (s : AppState) (e : Entry)
    (hi : pyIdx? s.files s.selected_idx = some e)
    (hlt : s.selected_idx < (s.files.length : Int))
    (hname : e.name = "..") :
    copy_file s = some (show_message
      { s with clipboard := [e.full_path], clipboard_is_cut := false }
      "Copied to clipboard" false) ∧
    cut_file s = some (show_message
      { s with clipboard := [e.full_path], clipboard_is_cut := true }
      "Cut to clipboard" false) ∧
    delete_file fs s = some (s, fs) ∧
    (∀ nn, rename_file fs s nn = some (s, fs)) := by
  have hg : ¬ ((s.files.length : Int) ≤ s.selected_idx) := not_le.mpr hlt
  refine ⟨?_, ?_, ?_, ?_⟩
  · simp [copy_file, if_pos hlt, hi]
  · simp [cut_file, if_pos hlt, hi]
  · simp [delete_file, if_neg hg, hi, hname]
  · intro nn
    simp [rename_file, if_neg hg, hi, hname]

/-- Witness for C10 with the `..` entry of /home selected (index 0). -/
theorem copy_cut_accept_dotdot_witness :
    copy_file homeState = some (show_message
      { homeState with clipboard := ["/home/.."], clipboard_is_cut := false }
      "Copied to clipboard" false) ∧
    cut_file homeState = some (show_message
      { homeState with clipboard := ["/home/.."], clipboard_is_cut := true }
      "Cut to clipboard" false) ∧
    delete_file fsDemo homeState = some (homeState, fsDemo) := by
  have h := copy_cut_accept_dotdot fsDemo homeState (dotdotEntry "/home")
    (by decide) (by decide) (by decide)
  exact ⟨h.1, h.2.1, h.2.2.1⟩

end FkFiles
